import Mathlib

/-!
Shallow embedding of `src/L1MuonRecoPropagator.cc` (package CMGTools/WTau3Mu,
class `cmg::L1MuonRecoPropagator`).

The module extrapolates each muon inner track to three fixed surfaces
(forward planes at z = +790 and z = -790, barrel cylinder of radius 500)
through two externally supplied propagators, an "along" one and an
"opposite" one.  The propagators, the magnetic field and the muon
collection are external services fetched per event; the embedding models
them as explicit parameters (`EventSetup`, `List Muon`) threaded through
the per-event entry point `produce`.
-/

namespace cmg

/-- Global 3D point (GlobalPoint in the source), coordinates in cm. -/
structure GlobalPoint where
  x : ℝ
  y : ℝ
  z : ℝ

/-- Global 3D vector (GlobalVector in the source), components in GeV/c. -/
structure GlobalVector where
  x : ℝ
  y : ℝ
  z : ℝ

/-- Magnetic field provider: the field vector as a function of position. -/
structure MagneticField where
  fieldAt : GlobalPoint → GlobalVector

/-- The part of reco::Track the module reads: inner position, inner
momentum and charge (source `freeTrajStateMuon`). -/
structure Track where
  innerPosition : GlobalPoint
  innerMomentum : GlobalVector
  charge : ℤ

/-- pat::Muon as consumed by `produce`: only its inner track is used. -/
structure Muon where
  innerTrack : Track

/-- FreeTrajectoryState: free-flight kinematic snapshot plus the field
reference handed to the constructor. -/
structure FreeTrajectoryState where
  position : GlobalPoint
  momentum : GlobalVector
  charge : ℤ
  field : MagneticField

/-- Surface rotation; the source always uses the default-constructed
identity rotation (`Plane::RotationType rot;`). -/
inductive Rotation where
  | identity

/-- Plane surface, from `Plane::build(pos, rot)`. -/
structure Plane where
  position : GlobalPoint
  rotation : Rotation

/-- Cylinder surface, from `Cylinder::build(pos, rot, rho)`. -/
structure Cylinder where
  position : GlobalPoint
  rotation : Rotation
  radius : ℝ

/-- TrajectoryStateOnSurface: validity flag plus the global position and
momentum reported at the surface.  Position and momentum are meaningful
only when `isValid` is true; the theorems below show the driver never
depends on them otherwise. -/
structure TrajectoryStateOnSurface where
  isValid : Bool
  globalPosition : GlobalPoint
  globalMomentum : GlobalVector

/-- Propagator service (`SmartPropagatorAny` / `SmartPropagatorAnyOpposite`):
transports a free state to a plane or a cylinder.  Failure is reported
through the validity flag of the returned state; there is no other
failure channel. -/
structure Propagator where
  propagateToPlane : FreeTrajectoryState → Plane → TrajectoryStateOnSurface
  propagateToCylinder : FreeTrajectoryState → Cylinder → TrajectoryStateOnSurface

/-- The per-event handles fetched at the top of `produce`: the magnetic
field and the two propagators. -/
structure EventSetup where
  theBField : MagneticField
  propagatorAlong : Propagator
  propagatorOpposite : Propagator

/-- Surface builder for the plane target: position (0, 0, z), identity
rotation (source `surfExtrapTrkSam`, lines building `myPlane`). -/
def planeAt (z : ℝ) : Plane :=
  { position := { x := 0, y := 0, z := z }, rotation := Rotation.identity }

/-- Surface builder for the cylinder target: centered at the origin,
identity rotation, radius rho (source `cylExtrapTrkSam`). -/
def cylinderAt (rho : ℝ) : Cylinder :=
  { position := { x := 0, y := 0, z := 0 }, rotation := Rotation.identity, radius := rho }

/-- `freeTrajStateMuon`: builds the free trajectory state from the inner
position, inner momentum and charge of the track, with the per-event
field handle. -/
def freeTrajStateMuon (env : EventSetup) (track : Track) : FreeTrajectoryState :=
  { position := { x := track.innerPosition.x, y := track.innerPosition.y, z := track.innerPosition.z }
    momentum := { x := track.innerMomentum.x, y := track.innerMomentum.y, z := track.innerMomentum.z }
    charge := track.charge
    field := env.theBField }

/-- `surfExtrapTrkSam`: extrapolate the track to the plane at longitudinal
offset z.  The along propagator is tried first; when its result is
invalid the opposite propagator is tried; the last result is returned. -/
def surfExtrapTrkSam (env : EventSetup) (track : Track) (z : ℝ) : TrajectoryStateOnSurface :=
  let myPlane : Plane := planeAt z
  let recoStart : FreeTrajectoryState := freeTrajStateMuon env track
  let recoProp : TrajectoryStateOnSurface := env.propagatorAlong.propagateToPlane recoStart myPlane
  if !recoProp.isValid then
    env.propagatorOpposite.propagateToPlane recoStart myPlane
  else
    recoProp

/-- `cylExtrapTrkSam`: extrapolate the track to the cylinder of radius
rho, with the same along-first, opposite-fallback policy. -/
def cylExtrapTrkSam (env : EventSetup) (track : Track) (rho : ℝ) : TrajectoryStateOnSurface :=
  let myCylinder : Cylinder := cylinderAt rho
  let recoStart : FreeTrajectoryState := freeTrajStateMuon env track
  let recoProp : TrajectoryStateOnSurface := env.propagatorAlong.propagateToCylinder recoStart myCylinder
  if !recoProp.isValid then
    env.propagatorOpposite.propagateToCylinder recoStart myCylinder
  else
    recoProp

/-- The two propagation senses. -/
inductive Sense where
  | along
  | opposite
deriving DecidableEq

/-- Attempt trace of `surfExtrapTrkSam`, read off its control flow: the
along propagator is always called; the opposite propagator is called
exactly when the along result is invalid. -/
def surfExtrapAttempts (env : EventSetup) (track : Track) (z : ℝ) : List Sense :=
  let recoProp := env.propagatorAlong.propagateToPlane (freeTrajStateMuon env track) (planeAt z)
  if !recoProp.isValid then [Sense.along, Sense.opposite] else [Sense.along]

/-- Attempt trace of `cylExtrapTrkSam`, read off its control flow. -/
def cylExtrapAttempts (env : EventSetup) (track : Track) (rho : ℝ) : List Sense :=
  let recoProp := env.propagatorAlong.propagateToCylinder (freeTrajStateMuon env track) (cylinderAt rho)
  if !recoProp.isValid then [Sense.along, Sense.opposite] else [Sense.along]

/-- Derived scalars of the valid branch of a plane-target block of
`produce`: xx, yy, rr = sqrt(xx*xx + yy*yy), cosphi = xx/rr. -/
structure PlaneDerived where
  xx : ℝ
  yy : ℝ
  rr : ℝ
  cosphi : ℝ

/-- Derived scalars of the valid branch of the cylinder-target block of
`produce`: xx, yy, zz, rr = sqrt(xx*xx + yy*yy), cosphi = xx/rr. -/
structure CylDerived where
  xx : ℝ
  yy : ℝ
  zz : ℝ
  rr : ℝ
  cosphi : ℝ

/-- Per-plane-target block of `produce`: when the state is valid, read
the global position and compute xx, yy, rr and cosphi; when it is
invalid, compute nothing (the sentinel push_back statements in the
source are commented out, so the invalid branch is empty). -/
noncomputable def handleSurfTSOS (t : TrajectoryStateOnSurface) : Option PlaneDerived :=
  if t.isValid then
    let xx := t.globalPosition.x
    let yy := t.globalPosition.y
    let rr := Real.sqrt (xx * xx + yy * yy)
    let cosphi := xx / rr
    some { xx := xx, yy := yy, rr := rr, cosphi := cosphi }
  else
    none

/-- Cylinder-target block of `produce`: as the plane block, additionally
reading zz from the global position. -/
noncomputable def handleCylTSOS (t : TrajectoryStateOnSurface) : Option CylDerived :=
  if t.isValid then
    let xx := t.globalPosition.x
    let yy := t.globalPosition.y
    let zz := t.globalPosition.z
    let rr := Real.sqrt (xx * xx + yy * yy)
    let cosphi := xx / rr
    some { xx := xx, yy := yy, zz := zz, rr := rr, cosphi := cosphi }
  else
    none

/-- Results of one loop iteration of `produce`: the derived scalars for
the plane at +790, the plane at -790 and the cylinder at 500. -/
abbrev TrackResult := Option PlaneDerived × Option PlaneDerived × Option CylDerived

/-- One iteration of the `produce` loop for one muon inner track: the
three extrapolations in source order, threading the member field `tsos`
explicitly (it is assigned before every read, so the incoming value s is
never consulted).  Returns the per-target results and the final value of
the member. -/
noncomputable def processTrackSt (env : EventSetup) (s : TrajectoryStateOnSurface)
    (tr : Track) : TrackResult × TrajectoryStateOnSurface :=
  let tsos1 := surfExtrapTrkSam env tr 790
  let res1 := handleSurfTSOS tsos1
  let tsos2 := surfExtrapTrkSam env tr (-790)
  let res2 := handleSurfTSOS tsos2
  let tsos3 := cylExtrapTrkSam env tr 500
  let res3 := handleCylTSOS tsos3
  ((res1, res2, res3), tsos3)

/-- The member field `tsos` before its first assignment: a
default-constructed, invalid state. -/
def tsosDefault : TrajectoryStateOnSurface :=
  { isValid := false
    globalPosition := { x := 0, y := 0, z := 0 }
    globalMomentum := { x := 0, y := 0, z := 0 } }

/-- The `produce` loop over the muon collection, threading the member
`tsos` from one iteration to the next. -/
noncomputable def produceGo (env : EventSetup) :
    TrajectoryStateOnSurface → List Muon → List TrackResult
  | _, [] => []
  | s, mu :: rest =>
    let step := processTrackSt env s mu.innerTrack
    step.1 :: produceGo env step.2 rest

/-- The per-event entry point `produce`: iterates the muon collection,
starting from the default-constructed member `tsos`. -/
noncomputable def produce (env : EventSetup) (mucand : List Muon) : List TrackResult :=
  produceGo env tsosDefault mucand

/-- An extrapolation target of the driver. -/
inductive Target where
  | plane (z : ℝ)
  | cylinder (rho : ℝ)

/-- The extrapolation calls one `produce` loop iteration issues for one
track, in source order: plane at +790, plane at -790, cylinder at 500. -/
def processTrackCalls (tr : Track) : List (Track × Target) :=
  [(tr, Target.plane 790), (tr, Target.plane (-790)), (tr, Target.cylinder 500)]

/-- The extrapolation calls `produce` issues over the whole collection,
in order. -/
def produceCalls : List Muon → List (Track × Target)
  | [] => []
  | mu :: rest => processTrackCalls mu.innerTrack ++ produceCalls rest

/-- The three per-target results of one track, written directly in terms
of the engine and the per-target blocks; used to state that `produce`
evaluates every track and every target independently. -/
noncomputable def trackResult (env : EventSetup) (mu : Muon) : TrackResult :=
  (handleSurfTSOS (surfExtrapTrkSam env mu.innerTrack 790),
   handleSurfTSOS (surfExtrapTrkSam env mu.innerTrack (-790)),
   handleCylTSOS (cylExtrapTrkSam env mu.innerTrack 500))

/-- The loop result does not depend on the threaded member state and is
the map of `trackResult` over the collection. -/
theorem produceGo_eq_map (env : EventSetup) (s : TrajectoryStateOnSurface)
    (mucand : List Muon) : produceGo env s mucand = mucand.map (trackResult env) := by
  induction mucand generalizing s with
  | nil => rfl
  | cons mu rest ih => simp [produceGo, processTrackSt, trackResult, ih]

/-- `produce` is the map of `trackResult` over the collection. -/
theorem produce_eq_map (env : EventSetup) (mucand : List Muon) :
    produce env mucand = mucand.map (trackResult env) :=
  produceGo_eq_map env tsosDefault mucand

/-- Claim C1: for every track and every target surface, the along
propagator is attempted first, the opposite propagator is attempted if
and only if the along result is invalid, and the returned state is the
along result when valid, otherwise exactly the direct opposite
propagation of the same free trajectory state to the same surface. -/
theorem claim1_along_first_opposite_fallback (env : EventSetup) (track : Track) (z rho : ℝ) :
    (surfExtrapAttempts env track z =
      if (env.propagatorAlong.propagateToPlane (freeTrajStateMuon env track) (planeAt z)).isValid
      then [Sense.along] else [Sense.along, Sense.opposite])
    ∧ (surfExtrapTrkSam env track z =
      if (env.propagatorAlong.propagateToPlane (freeTrajStateMuon env track) (planeAt z)).isValid
      then env.propagatorAlong.propagateToPlane (freeTrajStateMuon env track) (planeAt z)
      else env.propagatorOpposite.propagateToPlane (freeTrajStateMuon env track) (planeAt z))
    ∧ (cylExtrapAttempts env track rho =
      if (env.propagatorAlong.propagateToCylinder (freeTrajStateMuon env track) (cylinderAt rho)).isValid
      then [Sense.along] else [Sense.along, Sense.opposite])
    ∧ (cylExtrapTrkSam env track rho =
      if (env.propagatorAlong.propagateToCylinder (freeTrajStateMuon env track) (cylinderAt rho)).isValid
      then env.propagatorAlong.propagateToCylinder (freeTrajStateMuon env track) (cylinderAt rho)
      else env.propagatorOpposite.propagateToCylinder (freeTrajStateMuon env track) (cylinderAt rho)) := by
  refine ⟨?_, ?_, ?_, ?_⟩ <;>
    cases hb : (env.propagatorAlong.propagateToPlane (freeTrajStateMuon env track) (planeAt z)).isValid <;>
    cases hc : (env.propagatorAlong.propagateToCylinder (freeTrajStateMuon env track) (cylinderAt rho)).isValid <;>
    simp [surfExtrapAttempts, surfExtrapTrkSam, cylExtrapAttempts, cylExtrapTrkSam, hb, hc]

/-- Claim C2: both extrapolation entry points always return a
TrajectoryStateOnSurface that is one of the two propagator results (the
functions are total, with no exception channel), and the returned state
is invalid exactly when both the along and the opposite propagation are
invalid: failure is signaled only through the validity flag. -/
theorem claim2_total_result_validity_flag (env : EventSetup) (track : Track) (z rho : ℝ) :
    ((surfExtrapTrkSam env track z
        = env.propagatorAlong.propagateToPlane (freeTrajStateMuon env track) (planeAt z)
      ∨ surfExtrapTrkSam env track z
        = env.propagatorOpposite.propagateToPlane (freeTrajStateMuon env track) (planeAt z))
      ∧ ((surfExtrapTrkSam env track z).isValid = false
        ↔ (env.propagatorAlong.propagateToPlane (freeTrajStateMuon env track) (planeAt z)).isValid = false
          ∧ (env.propagatorOpposite.propagateToPlane (freeTrajStateMuon env track) (planeAt z)).isValid = false))
    ∧ ((cylExtrapTrkSam env track rho
        = env.propagatorAlong.propagateToCylinder (freeTrajStateMuon env track) (cylinderAt rho)
      ∨ cylExtrapTrkSam env track rho
        = env.propagatorOpposite.propagateToCylinder (freeTrajStateMuon env track) (cylinderAt rho))
      ∧ ((cylExtrapTrkSam env track rho).isValid = false
        ↔ (env.propagatorAlong.propagateToCylinder (freeTrajStateMuon env track) (cylinderAt rho)).isValid = false
          ∧ (env.propagatorOpposite.propagateToCylinder (freeTrajStateMuon env track) (cylinderAt rho)).isValid = false)) := by
  constructor
  · cases hb : (env.propagatorAlong.propagateToPlane (freeTrajStateMuon env track) (planeAt z)).isValid <;>
      simp [surfExtrapTrkSam, hb]
  · cases hc : (env.propagatorAlong.propagateToCylinder (freeTrajStateMuon env track) (cylinderAt rho)).isValid <;>
      simp [cylExtrapTrkSam, hc]

/-- Claim C3: for every track in the input muon collection, the driver
issues exactly three extrapolation calls, in order: plane at z = +790,
plane at z = -790, cylinder of radius 500; hence three calls per track
over the whole collection, in collection order. -/
theorem claim3_three_extrapolations_in_order (mucand : List Muon) :
    produceCalls mucand
      = mucand.flatMap (fun mu =>
          [(mu.innerTrack, Target.plane 790),
           (mu.innerTrack, Target.plane (-790)),
           (mu.innerTrack, Target.cylinder 500)])
    ∧ (produceCalls mucand).length = 3 * mucand.length := by
  constructor
  · induction mucand with
    | nil => rfl
    | cons mu rest ih => simp [produceCalls, processTrackCalls, ih]
  · induction mucand with
    | nil => rfl
    | cons mu rest ih =>
      have h3 : (processTrackCalls mu.innerTrack).length = 3 := rfl
      simp only [produceCalls, List.length_append, List.length_cons, h3, ih]
      omega

/-- Claim C4: for every valid state, the driver derives xx and yy from
the reported global position, rr = sqrt(xx*xx + yy*yy) and
cosphi = xx/rr, in both the plane and the cylinder blocks, and the
derived rr is nonnegative. -/
theorem claim4_derived_radius_cosphi (t : TrajectoryStateOnSurface)
    (h : t.isValid = true) :
    handleSurfTSOS t = some
      { xx := t.globalPosition.x
        yy := t.globalPosition.y
        rr := Real.sqrt (t.globalPosition.x * t.globalPosition.x
                + t.globalPosition.y * t.globalPosition.y)
        cosphi := t.globalPosition.x / Real.sqrt (t.globalPosition.x * t.globalPosition.x
                + t.globalPosition.y * t.globalPosition.y) }
    ∧ handleCylTSOS t = some
      { xx := t.globalPosition.x
        yy := t.globalPosition.y
        zz := t.globalPosition.z
        rr := Real.sqrt (t.globalPosition.x * t.globalPosition.x
                + t.globalPosition.y * t.globalPosition.y)
        cosphi := t.globalPosition.x / Real.sqrt (t.globalPosition.x * t.globalPosition.x
                + t.globalPosition.y * t.globalPosition.y) }
    ∧ 0 ≤ Real.sqrt (t.globalPosition.x * t.globalPosition.x
            + t.globalPosition.y * t.globalPosition.y) := by
  refine ⟨?_, ?_, Real.sqrt_nonneg _⟩ <;> simp [handleSurfTSOS, handleCylTSOS, h]

/-- Uniform field (0, 0, 3.8), the field of the end-to-end scenario of
the specification. -/
def uniformField : MagneticField := ⟨fun _ => { x := 0, y := 0, z := 3.8 }⟩

/-- Zero momentum vector, used by the test propagators below. -/
def zeroVector : GlobalVector := { x := 0, y := 0, z := 0 }

/-- Test propagator reporting a valid state at the center of the target
surface. -/
def propCenter : Propagator :=
  { propagateToPlane := fun _ p =>
      { isValid := true, globalPosition := p.position, globalMomentum := zeroVector }
    propagateToCylinder := fun _ c =>
      { isValid := true, globalPosition := c.position, globalMomentum := zeroVector } }

/-- Test propagator that always reports an invalid state. -/
def propFail : Propagator :=
  { propagateToPlane := fun _ _ =>
      { isValid := false, globalPosition := { x := 0, y := 0, z := 0 }, globalMomentum := zeroVector }
    propagateToCylinder := fun _ _ =>
      { isValid := false, globalPosition := { x := 0, y := 0, z := 0 }, globalMomentum := zeroVector } }

/-- Test propagator succeeding on planes and failing on cylinders. -/
def propPlaneOnly : Propagator :=
  { propagateToPlane := fun _ p =>
      { isValid := true, globalPosition := p.position, globalMomentum := zeroVector }
    propagateToCylinder := fun _ _ =>
      { isValid := false, globalPosition := { x := 0, y := 0, z := 0 }, globalMomentum := zeroVector } }

/-- Event setup whose two propagators always succeed at the target
center. -/
def env0 : EventSetup := ⟨uniformField, propCenter, propCenter⟩

/-- Event setup whose two propagators always fail. -/
def envFail : EventSetup := ⟨uniformField, propFail, propFail⟩

/-- Event setup whose propagators reach planes but not cylinders. -/
def envPlaneOnly : EventSetup := ⟨uniformField, propPlaneOnly, propPlaneOnly⟩

/-- The end-to-end scenario track: inner position at the origin, inner
momentum (0, 0, 50), charge +1. -/
def tr0 : Track :=
  { innerPosition := { x := 0, y := 0, z := 0 }
    innerMomentum := { x := 0, y := 0, z := 50 }
    charge := 1 }

/-- A second, distinct track. -/
def trB : Track :=
  { innerPosition := { x := 1, y := 1, z := 1 }
    innerMomentum := { x := 2, y := 2, z := 2 }
    charge := -1 }

/-- Muon carrying `tr0`. -/
def mu0 : Muon := ⟨tr0⟩

/-- Muon carrying `trB`. -/
def mu1 : Muon := ⟨trB⟩

/-- A valid state at global position (3, 4, 12). -/
def t34 : TrajectoryStateOnSurface :=
  { isValid := true
    globalPosition := { x := 3, y := 4, z := 12 }
    globalMomentum := { x := 0, y := 0, z := 1 } }

/-- An invalid state carrying a nonzero position and momentum payload. -/
def tInv1 : TrajectoryStateOnSurface :=
  { isValid := false
    globalPosition := { x := 1, y := 2, z := 3 }
    globalMomentum := { x := 4, y := 5, z := 6 } }

/-- A second invalid state with a different payload. -/
def tInv2 : TrajectoryStateOnSurface :=
  { isValid := false
    globalPosition := { x := 7, y := 8, z := 9 }
    globalMomentum := { x := 1, y := 0, z := 0 } }

/-- The derived record of a plane block whose state sits at the surface
center (transverse position (0, 0)): radius sqrt(0) and an unguarded
division by it. -/
noncomputable def centerDerived : PlaneDerived :=
  { xx := 0, yy := 0, rr := Real.sqrt (0 * 0 + 0 * 0), cosphi := 0 / Real.sqrt (0 * 0 + 0 * 0) }

/-- The derived record of the cylinder block whose state sits at the
origin. -/
noncomputable def cylCenterDerived : CylDerived :=
  { xx := 0, yy := 0, zz := 0, rr := Real.sqrt (0 * 0 + 0 * 0), cosphi := 0 / Real.sqrt (0 * 0 + 0 * 0) }

/-- The sentinel record the specification prescribes for an invalid
plane target. -/
def planeSentinel : PlaneDerived :=
  { xx := -999999, yy := -999999, rr := -999999, cosphi := -999999 }

/-- The sentinel record the specification prescribes for an invalid
cylinder target. -/
def cylSentinel : CylDerived :=
  { xx := -999999, yy := -999999, zz := -999999, rr := -999999, cosphi := -999999 }

/-- Claim C5 counterexample: with propagators that fail on every target,
the driver output for the track is (none, none, none) — no sentinel
record is ever produced (the sentinel statements are commented out in
the source). -/
theorem claim5_counterexample :
    produce envFail [mu0] = [(none, none, none)]
    ∧ (none : Option PlaneDerived) ≠ some planeSentinel
    ∧ (none : Option CylDerived) ≠ some cylSentinel :=
  ⟨rfl, by simp, by simp⟩

/-- Claim C5 as amended: for an invalid state the driver computes no
derived value at all for that target; the result of the per-target block
is none, not a sentinel. -/
theorem claim5_amended_no_output_when_invalid (t : TrajectoryStateOnSurface)
    (h : t.isValid = false) :
    handleSurfTSOS t = none ∧ handleCylTSOS t = none := by
  simp [handleSurfTSOS, handleCylTSOS, h]

/-- Claim C5 amended, at a concrete invalid state. -/
theorem claim5_witness :
    tInv1.isValid = false ∧ (handleSurfTSOS tInv1 = none ∧ handleCylTSOS tInv1 = none) :=
  ⟨rfl, claim5_amended_no_output_when_invalid tInv1 rfl⟩

/-- Claim C4 at a concrete valid state at position (3, 4, 12). -/
theorem claim4_witness :
    t34.isValid = true
    ∧ (handleSurfTSOS t34 = some
        { xx := 3, yy := 4
          rr := Real.sqrt (3 * 3 + 4 * 4)
          cosphi := 3 / Real.sqrt (3 * 3 + 4 * 4) }
      ∧ handleCylTSOS t34 = some
        { xx := 3, yy := 4, zz := 12
          rr := Real.sqrt (3 * 3 + 4 * 4)
          cosphi := 3 / Real.sqrt (3 * 3 + 4 * 4) }
      ∧ 0 ≤ Real.sqrt ((3 : ℝ) * 3 + 4 * 4)) :=
  ⟨rfl, claim4_derived_radius_cosphi t34 rfl⟩

/-- Claim C6: the plane extrapolation is a deterministic function of the
event setup (field and propagator data), the track and the offset z:
identical inputs give identical results. -/
theorem claim6_plane_extrap_deterministic (ea eb : EventSetup) (ta tb : Track)
    (za zb : ℝ) (henv : ea = eb) (htr : ta = tb) (hz : za = zb) :
    surfExtrapTrkSam ea ta za = surfExtrapTrkSam eb tb zb := by
  rw [henv, htr, hz]

/-- Claim C6 at a concrete setup, track and offset. -/
theorem claim6_witness :
    env0 = env0 ∧ tr0 = tr0 ∧ (790 : ℝ) = 790
    ∧ surfExtrapTrkSam env0 tr0 790 = surfExtrapTrkSam env0 tr0 790 :=
  ⟨rfl, rfl, rfl, claim6_plane_extrap_deterministic env0 env0 tr0 tr0 790 790 rfl rfl rfl⟩

/-- Claim C7: the driver reads the global position only under the
validity flag: when two states are both invalid, the per-target blocks
give the same result whatever position and momentum payloads the two
states carry — the payload of an invalid state is never read. -/
theorem claim7_invalid_position_never_read (t1 t2 : TrajectoryStateOnSurface)
    (h1 : t1.isValid = false) (h2 : t2.isValid = false) :
    handleSurfTSOS t1 = handleSurfTSOS t2 ∧ handleCylTSOS t1 = handleCylTSOS t2 := by
  simp [handleSurfTSOS, handleCylTSOS, h1, h2]

/-- Claim C7 at two concrete invalid states with different position and
momentum payloads. -/
theorem claim7_witness :
    tInv1.isValid = false ∧ tInv2.isValid = false
    ∧ (handleSurfTSOS tInv1 = handleSurfTSOS tInv2
      ∧ handleCylTSOS tInv1 = handleCylTSOS tInv2) :=
  ⟨rfl, rfl, claim7_invalid_position_never_read tInv1 tInv2 rfl rfl⟩

/-- Claim C8 counterexample: with propagators that reach planes but
never cylinders, every track of a two-muon collection is still fully
processed (both plane targets evaluated, next track processed), but the
cylinder slot holds none, not the sentinel record the claim states. -/
theorem claim8_counterexample :
    produce envPlaneOnly [mu0, mu1]
      = [(some centerDerived, some centerDerived, none),
         (some centerDerived, some centerDerived, none)]
    ∧ (none : Option CylDerived) ≠ some cylSentinel :=
  ⟨rfl, by simp⟩

/-- Claim C8 as amended: an invalid extrapolation aborts nothing — the
driver result is the independent per-track, per-target map over the
whole collection (every muon yields exactly one entry, and each entry
evaluates all three targets), the invalid target contributing none
rather than a sentinel. -/
theorem claim8_amended_no_abort (env : EventSetup) (mucand : List Muon) :
    produce env mucand = mucand.map (trackResult env)
    ∧ (produce env mucand).length = mucand.length := by
  refine ⟨produce_eq_map env mucand, ?_⟩
  rw [produce_eq_map]
  simp

/-- Claim C9: the result for a track depends only on that track and the
event setup: if two collections hold the same muon at positions i and j,
the driver outputs at i and j coincide, whatever the other tracks are. -/
theorem claim9_cross_track_independence (env : EventSetup) (muons1 muons2 : List Muon)
    (i j : ℕ) (hagree : muons1[i]? = muons2[j]?) :
    (produce env muons1)[i]? = (produce env muons2)[j]? := by
  rw [produce_eq_map, produce_eq_map, List.getElem?_map, List.getElem?_map, hagree]

/-- Claim C9 at concrete collections: `mu0` appears at index 1 of the
first collection and index 0 of the second, with a different companion
track present only in the first. -/
theorem claim9_witness :
    ([mu1, mu0] : List Muon)[1]? = ([mu0] : List Muon)[0]?
    ∧ (produce env0 [mu1, mu0])[1]? = (produce env0 [mu0])[0]? :=
  ⟨rfl, claim9_cross_track_independence env0 [mu1, mu0] [mu0] 1 0 rfl⟩

/-- Claim C10 counterexample: under a propagator that lands on the beam
axis, the driver processes a valid state with rr = 0 and evaluates the
unguarded division: the divisor of cosphi is not always nonzero. -/
theorem claim10_counterexample :
    produce env0 [mu0] = [(some centerDerived, some centerDerived, some cylCenterDerived)]
    ∧ (surfExtrapTrkSam env0 tr0 790).isValid = true
    ∧ centerDerived.rr = 0 := by
  refine ⟨rfl, rfl, ?_⟩
  simp [centerDerived]

/-- Claim C10 as amended: the division is unguarded — for every valid
state the driver computes cosphi = xx/rr with no check on rr; rr is zero
exactly when the extrapolated position lies on the beam axis
(x = y = 0), and nothing prevents a valid on-axis state. -/
theorem claim10_amended_unguarded_division (t : TrajectoryStateOnSurface)
    (h : t.isValid = true) :
    handleSurfTSOS t = some
      { xx := t.globalPosition.x
        yy := t.globalPosition.y
        rr := Real.sqrt (t.globalPosition.x * t.globalPosition.x
                + t.globalPosition.y * t.globalPosition.y)
        cosphi := t.globalPosition.x / Real.sqrt (t.globalPosition.x * t.globalPosition.x
                + t.globalPosition.y * t.globalPosition.y) }
    ∧ (Real.sqrt (t.globalPosition.x * t.globalPosition.x
          + t.globalPosition.y * t.globalPosition.y) = 0
        ↔ (t.globalPosition.x = 0 ∧ t.globalPosition.y = 0)) := by
  constructor
  · simp [handleSurfTSOS, h]
  · constructor
    · intro h0
      have hx : 0 ≤ t.globalPosition.x * t.globalPosition.x := mul_self_nonneg _
      have hy : 0 ≤ t.globalPosition.y * t.globalPosition.y := mul_self_nonneg _
      have hle : t.globalPosition.x * t.globalPosition.x
          + t.globalPosition.y * t.globalPosition.y ≤ 0 := Real.sqrt_eq_zero'.mp h0
      have hxz : t.globalPosition.x * t.globalPosition.x = 0 := by linarith
      have hyz : t.globalPosition.y * t.globalPosition.y = 0 := by linarith
      exact ⟨mul_self_eq_zero.mp hxz, mul_self_eq_zero.mp hyz⟩
    · rintro ⟨hx0, hy0⟩
      rw [hx0, hy0]
      simp

/-- Claim C10 amended, at a concrete valid state off the beam axis. -/
theorem claim10_witness :
    t34.isValid = true
    ∧ (handleSurfTSOS t34 = some
        { xx := 3, yy := 4
          rr := Real.sqrt (3 * 3 + 4 * 4)
          cosphi := 3 / Real.sqrt (3 * 3 + 4 * 4) }
      ∧ (Real.sqrt ((3 : ℝ) * 3 + 4 * 4) = 0 ↔ ((3 : ℝ) = 0 ∧ (4 : ℝ) = 0))) :=
  ⟨rfl, claim10_amended_unguarded_division t34 rfl⟩

end cmg
